import Mathlib

/-!
Shallow embedding of the booking/payment core of the HuntProj backend
(`src/backend_server/app`): the availability checker, pricing validator,
booking lifecycle endpoints and the payment orchestrator / webhook
reconciler, together with theorems settling the specification claims.

Conventions of the embedding:
* Python `float` currency amounts are modelled as exact rationals (`ℚ`);
  `round(x, 2)` and `round(x)` use Python's round-half-to-even, `int(x)`
  truncates toward zero.
* `datetime` instants are modelled as integers (seconds); `timedelta(days=n)`
  is `n * oneDay`.
* SQLAlchemy queries over a table are modelled as functions over a
  `List` of rows; `query.first()` is `List.find?`, mutating the found row
  is `updateFirst`, `db.delete(row)` is `List.eraseP`.
* A FastAPI handler raising `HTTPException` is modelled as a function into
  `Except`; each distinct `raise` site gets its own error constructor.
-/

namespace HuntProj

/-- Booking statuses, from `app/models/enums.py` (`BookingStatus`). -/
inductive BookingStatus where
  | pending
  | confirmed
  | cancelled
  | completed
  | no_show
  | refunded
deriving DecidableEq, Repr

/-- Payment statuses, from `app/models/enums.py` (`PaymentStatus`).
`partRefunded` embeds the source's PARTIALLY_REFUNDED member. -/
inductive PaymentStatus where
  | pending
  | authorized
  | paid
  | failed
  | cancelled
  | refunded
  | partRefunded
deriving DecidableEq, Repr

/-- Property listing statuses, from `app/models/enums.py` (`PropertyStatus`). -/
inductive PropertyStatus where
  | draft
  | pending
  | approved
  | rejected
deriving DecidableEq, Repr

/-- Seconds per day; `timedelta(days=n)` is `n * oneDay`. -/
def oneDay : ℤ := 86400

/-- Python `round(x)` on an exact rational: round half to even. -/
def pyRoundZ (x : ℚ) : ℤ :=
  let f : ℤ := ⌊x⌋
  let r : ℚ := x - f
  if r < 1/2 then f
  else if 1/2 < r then f + 1
  else if f % 2 = 0 then f else f + 1

/-- Python `int(x)` on an exact rational: truncation toward zero. -/
def pyInt (x : ℚ) : ℤ :=
  if 0 ≤ x then ⌊x⌋ else -⌊-x⌋

/-- Python `round(x, 2)` on an exact rational. -/
def pyRound2 (x : ℚ) : ℚ :=
  (pyRoundZ (x * 100) : ℚ) / 100

/-- Result record of `BookingService.calculate_pricing`
(`app/services/booking_service.py`, lines 65-84). -/
structure PricingBreakdown where
  package_price : ℚ
  service_fee : ℚ
  taxes : ℚ
  total_price : ℚ
deriving DecidableEq, Repr

/-- `BookingService.calculate_pricing` (`app/services/booking_service.py`,
lines 65-84).  Mirrors the source exactly: the `guest_count` parameter is
accepted but never read by the body, `service_fee` and `taxes` are rounded
to 2 decimal places, and `total_price` is the plain (unrounded) sum. -/
def calculate_pricing (package_price : ℚ) (guest_count : ℕ)
    (service_fee_rate : ℚ) (tax_rate : ℚ) : PricingBreakdown :=
  let _ := guest_count
  let service_fee := pyRound2 (package_price * service_fee_rate)
  let taxes := pyRound2 (package_price * tax_rate)
  let total_price := package_price + service_fee + taxes
  { package_price := package_price
    service_fee := service_fee
    taxes := taxes
    total_price := total_price }

/-- A row of the `bookings` table, with the columns the booking/payment
endpoints read or write (`app/api/endpoints/bookings.py`,
`app/services/booking_service.py`).  The ORM file under `app/models/` is a
stale snapshot lacking most of these columns; the field set here is taken
from the columns the in-repo endpoints dereference. -/
structure Booking where
  id : ℕ
  property_id : ℕ
  user_id : ℕ
  check_in_date : ℤ
  check_out_date : ℤ
  guest_count : ℕ
  package_price : ℚ
  service_fee : ℚ
  taxes : ℚ
  total_price : ℚ
  status : BookingStatus
  payment_status : PaymentStatus
  special_requests : Option String
  lead_hunter_name : Option String
  lead_hunter_phone : Option String
  lead_hunter_email : Option String
  booking_notes : Option String
  cancellation_reason : Option String
  booking_deadline : Option ℤ
  confirmed_at : Option ℤ
  cancelled_at : Option ℤ
  completed_at : Option ℤ
  updated_at : Option ℤ
  payment_authorized_at : Option ℤ
  provider_notified_at : Option ℤ
  provider_response_deadline : Option ℤ
deriving DecidableEq, Repr

/-- The three-disjunct SQL overlap filter shared by
`BookingService.check_availability` (`booking_service.py`, lines 100-109) and
the `create_booking` endpoint (`bookings.py`, lines 110-119), applied to an
existing booking `[eIn, eOut]` and a requested range `[nIn, nOut]`. -/
def overlapFilter (eIn eOut nIn nOut : ℤ) : Bool :=
  (decide (eIn ≤ nIn) && decide (eOut > nIn)) ||
  (decide (eIn < nOut) && decide (eOut ≥ nOut)) ||
  (decide (eIn ≥ nIn) && decide (eOut ≤ nOut))

/-- One conjunct per SQL filter clause of the availability query
(`booking_service.py`, lines 97-113): same property, status in
PENDING/CONFIRMED, overlapping dates, and (when a truthy
`exclude_booking_id` is given) a different booking id. -/
def blocksBooking (propertyId : ℕ) (cin cout : ℤ) (excludeId : Option ℕ)
    (b : Booking) : Bool :=
  decide (b.property_id = propertyId) &&
  (decide (b.status = BookingStatus.pending) ||
    decide (b.status = BookingStatus.confirmed)) &&
  overlapFilter b.check_in_date b.check_out_date cin cout &&
  (match excludeId with
   | none => true
   | some i => if i = 0 then true else decide (b.id ≠ i))

/-- `BookingService.check_availability` (`booking_service.py`, lines 86-115):
`True` iff no qualifying booking row matches the overlap query
(`query.first() is None`). -/
def check_availability (db : List Booking) (property_id : ℕ)
    (cin cout : ℤ) (excludeId : Option ℕ) : Bool :=
  !(db.any (blocksBooking property_id cin cout excludeId))

/-- For real date ranges (start strictly before end on both sides), a
booking passes the source's three-disjunct overlap filter exactly when the
half-open-interval overlap predicate of the spec holds. -/
theorem blocksBooking_iff_halfopen (b : Booking) (pid : ℕ) (cin cout : ℤ)
    (hb : b.check_in_date < b.check_out_date) (hreq : cin < cout) :
    blocksBooking pid cin cout none b = true ↔
      (b.property_id = pid ∧
        (b.status = BookingStatus.pending ∨ b.status = BookingStatus.confirmed) ∧
        b.check_in_date < cout ∧ cin < b.check_out_date) := by
  simp only [blocksBooking, overlapFilter, Bool.and_eq_true, Bool.or_eq_true,
    decide_eq_true_eq, and_true, and_assoc]
  refine and_congr_right fun _ => and_congr_right fun _ => ?_
  omega

/-- Claim C1: the availability check reports a conflict exactly when some
existing booking on the same property with status PENDING or CONFIRMED
overlaps the requested range under the half-open predicate
(`existing.check_in < new.check_out AND new.check_in < existing.check_out`);
touching boundaries never block, and statuses outside PENDING/CONFIRMED
never block (both immediate from the right-hand side of the iff). -/
theorem C1_availability_halfopen (db : List Booking) (pid : ℕ) (cin cout : ℤ)
    (hreq : cin < cout)
    (hdb : ∀ b ∈ db, b.check_in_date < b.check_out_date) :
    (check_availability db pid cin cout none = false ↔
      ∃ b ∈ db, b.property_id = pid ∧
        (b.status = BookingStatus.pending ∨ b.status = BookingStatus.confirmed) ∧
        b.check_in_date < cout ∧ cin < b.check_out_date) := by
  have hflip : check_availability db pid cin cout none = false ↔
      db.any (blocksBooking pid cin cout none) = true := by
    unfold check_availability
    cases db.any (blocksBooking pid cin cout none) <;> simp
  rw [hflip, List.any_eq_true]
  constructor
  · rintro ⟨b, hmem, hblk⟩
    exact ⟨b, hmem, (blocksBooking_iff_halfopen b pid cin cout (hdb b hmem) hreq).1 hblk⟩
  · rintro ⟨b, hmem, hhalf⟩
    exact ⟨b, hmem, (blocksBooking_iff_halfopen b pid cin cout (hdb b hmem) hreq).2 hhalf⟩

/-- A concrete PENDING booking of property 1 over `[0, 5)` for user 10,
used to instantiate theorems at concrete inputs. -/
def baseBooking : Booking :=
  { id := 1, property_id := 1, user_id := 10
    check_in_date := 0, check_out_date := 5
    guest_count := 2
    package_price := 200, service_fee := 20, taxes := 0, total_price := 220
    status := BookingStatus.pending, payment_status := PaymentStatus.pending
    special_requests := none, lead_hunter_name := none
    lead_hunter_phone := none, lead_hunter_email := none
    booking_notes := none, cancellation_reason := none
    booking_deadline := none, confirmed_at := none, cancelled_at := none
    completed_at := none, updated_at := none, payment_authorized_at := none
    provider_notified_at := none, provider_response_deadline := none }

/-- Witness for C1: the theorem instantiated at a one-booking table and the
request `[5, 8)` that touches the existing `[0, 5)` at its checkout. -/
theorem C1_availability_halfopen_witness :
    (check_availability [baseBooking] 1 5 8 none = false ↔
      ∃ b ∈ [baseBooking], b.property_id = 1 ∧
        (b.status = BookingStatus.pending ∨ b.status = BookingStatus.confirmed) ∧
        b.check_in_date < 8 ∧ 5 < b.check_out_date) :=
  C1_availability_halfopen [baseBooking] 1 5 8 (by decide)
    (by intro b hb; simp only [List.mem_singleton] at hb; subst hb; decide)

/-- Claim C2 (code_bug evidence): evaluating the source's
`calculate_pricing` at the spec's worked example
(`package_base_price=100, guest_count=2, service_fee_rate=0.10, tax_rate=0`)
yields `package_price=100, service_fee=10, taxes=0, total_price=110` — the
`guest_count` parameter is never used — instead of the
`200/20/0/220` required by the claim. -/
theorem C2_calculate_pricing_eval :
    calculate_pricing 100 2 (1/10) 0 =
        { package_price := 100, service_fee := 10, taxes := 0, total_price := 110 } ∧
      calculate_pricing 100 2 (1/10) 0 ≠
        { package_price := 200, service_fee := 20, taxes := 0, total_price := 220 } := by
  have h : calculate_pricing 100 2 (1/10) 0 =
      { package_price := 100, service_fee := 10, taxes := 0, total_price := 110 } := by
    unfold calculate_pricing pyRound2 pyRoundZ
    norm_num
  refine ⟨h, ?_⟩
  rw [h]
  intro hcontra
  have : (100 : ℚ) = 200 := congrArg PricingBreakdown.package_price hcontra
  norm_num at this

/-- `True`/`False` view of an endpoint outcome (`.ok` vs a raised
`HTTPException`). -/
def isSuccess {ε α : Type} : Except ε α → Bool
  | Except.ok _ => true
  | Except.error _ => false

/-- A hunting package record from a property's schema-less
`hunting_packages` JSON list; every key access in the endpoints goes
through `dict.get`, so each field is an `Option`.  Both the camelCase and
snake_case spellings read by `create_booking` (`bookings.py`, lines 90, 98)
are present. -/
structure HuntingPackage where
  id : Option String
  name : Option String
  price : Option ℚ
  base_price : Option ℚ
  maxHunters : Option ℕ
  max_hunters : Option ℕ
deriving DecidableEq, Repr

/-- `hunting_package.get("maxHunters") or hunting_package.get("max_hunters", 1)`
(`bookings.py`, line 90): Python `or` falls through on a falsy (absent or
zero) first operand. -/
def pkgMaxHunters (pkg : HuntingPackage) : ℕ :=
  match pkg.maxHunters with
  | some n => if n = 0 then pkg.max_hunters.getD 1 else n
  | none => pkg.max_hunters.getD 1

/-- `hunting_package.get("price") or hunting_package.get("base_price", 0)`
(`bookings.py`, line 98), with the same falsy fall-through. -/
def pkgBasePrice (pkg : HuntingPackage) : ℚ :=
  match pkg.price with
  | some v => if v = 0 then pkg.base_price.getD 0 else v
  | none => pkg.base_price.getD 0

/-- A row of the `properties` table, restricted to the columns the booking
endpoints read. -/
structure PropertyRec where
  id : ℕ
  provider_id : ℕ
  status : PropertyStatus
  is_listed : Bool
  hunting_packages : List HuntingPackage
deriving DecidableEq, Repr

/-- The resolved current user: `{id, role}` as produced by
`get_current_user`; the role is compared against the string literals
`"admin"` / `"provider"` exactly as the endpoints do. -/
structure UserRec where
  id : ℕ
  role : String
deriving DecidableEq, Repr

/-- The request body of the booking-creation endpoint.  The
`BookingCreate` pydantic class imported by `bookings.py` is missing from
the source snapshot (the `app/schemas/booking.py` present is a stale
version without these fields); the field set is taken from the attributes
the in-repo `create_booking` endpoint dereferences.  Accommodation and
audit fields not touched by any claim are omitted. -/
structure BookingCreate where
  property_id : ℕ
  check_in_date : ℤ
  check_out_date : ℤ
  guest_count : ℕ
  hunting_package_id : String
  hunting_package_name : String
  package_price : ℚ
  service_fee : ℚ
  taxes : ℚ
  total_price : ℚ
  lead_hunter_name : Option String
  lead_hunter_phone : Option String
  lead_hunter_email : Option String
  special_requests : Option String
deriving DecidableEq, Repr

/-- Error outcomes of the modelled endpoints, one constructor per distinct
`raise HTTPException` site reached by the claims. -/
inductive ApiErr where
  | propertyNotFound
  | packageNotFound
  | guestCountExceeded
  | packagePriceMismatch
  | datesUnavailable
  | forbidden
  | notCancellable
  | deadlinePassed
  | notPending
  | onlyConfirmedCompletable
  | bookingNotFound
  | bookingNotPending
  | amountMismatch
  | paymentNotFound
  | authorizationNotSuccessful
deriving DecidableEq, Repr

/-- The property lookup filter of `create_booking` (`bookings.py`,
lines 62-68): matching id, APPROVED status, and listed. -/
def propertyQuery (property_id : ℕ) (p : PropertyRec) : Bool :=
  decide (p.id = property_id) &&
  decide (p.status = PropertyStatus.approved) &&
  p.is_listed

/-- The package lookup of `create_booking` (`bookings.py`, lines 78-81):
first package whose `id` equals the submitted id or whose `name` equals the
submitted name (a missing key, `None`, never equals a submitted string). -/
def packageQuery (booking_in : BookingCreate) (pkg : HuntingPackage) : Bool :=
  decide (pkg.id = some booking_in.hunting_package_id) ||
  decide (pkg.name = some booking_in.hunting_package_name)

/-- The `create_booking` endpoint (`bookings.py`, lines 51-165): property
lookup, package lookup, guest-count check, package-price check
(`abs(booking_in.package_price - expected_package_price) > 0.01`), the
overlap query (same three-disjunct filter as the service), then the
persisted row.  Note the submitted `service_fee`, `taxes` and
`total_price` are copied into the row without any check. -/
def create_booking (props : List PropertyRec) (db : List Booking)
    (booking_in : BookingCreate) (current_user_id : ℕ) (newId : ℕ) :
    Except ApiErr Booking :=
  match props.find? (propertyQuery booking_in.property_id) with
  | none => Except.error ApiErr.propertyNotFound
  | some property_obj =>
    match property_obj.hunting_packages.find? (packageQuery booking_in) with
    | none => Except.error ApiErr.packageNotFound
    | some hunting_package =>
      if booking_in.guest_count > pkgMaxHunters hunting_package then
        Except.error ApiErr.guestCountExceeded
      else if |booking_in.package_price -
          pkgBasePrice hunting_package * (booking_in.guest_count : ℚ)| > 1/100 then
        Except.error ApiErr.packagePriceMismatch
      else if db.any (blocksBooking booking_in.property_id
          booking_in.check_in_date booking_in.check_out_date none) then
        Except.error ApiErr.datesUnavailable
      else
        Except.ok
          { id := newId
            property_id := booking_in.property_id
            user_id := current_user_id
            check_in_date := booking_in.check_in_date
            check_out_date := booking_in.check_out_date
            guest_count := booking_in.guest_count
            package_price := booking_in.package_price
            service_fee := booking_in.service_fee
            taxes := booking_in.taxes
            total_price := booking_in.total_price
            status := BookingStatus.pending
            payment_status := PaymentStatus.pending
            special_requests := booking_in.special_requests
            lead_hunter_name := booking_in.lead_hunter_name
            lead_hunter_phone := booking_in.lead_hunter_phone
            lead_hunter_email := booking_in.lead_hunter_email
            booking_notes := none
            cancellation_reason := none
            booking_deadline := some (booking_in.check_in_date - 7 * oneDay)
            confirmed_at := none
            cancelled_at := none
            completed_at := none
            updated_at := none
            payment_authorized_at := none
            provider_notified_at := none
            provider_response_deadline := none }

/-- A row of the `payments` table, with the columns the payment endpoints
read or write (`app/api/endpoints/payments.py`).  As with `Booking`, the
ORM file under `app/models/` is a stale snapshot; the field set is taken
from the attributes the in-repo endpoints dereference. -/
structure PaymentRec where
  id : ℕ
  booking_id : ℕ
  stripe_payment_intent_id : String
  amount : ℚ
  status : PaymentStatus
  authorized_at : Option ℤ
  captured_at : Option ℤ
  cancelled_at : Option ℤ
  completed_at : Option ℤ
  capture_deadline : Option ℤ
  failure_reason : Option String
  cancellation_reason : Option String
  refund_amount : Option ℚ
  refund_reason : Option String
  updated_at : Option ℤ
deriving DecidableEq, Repr

/-- Modelled from the spec: the `BookingUpdate` pydantic schema used by
`update_booking` is absent from the source snapshot (the
`app/schemas/booking.py` present is a stale version carrying only
`status`/`payment_status`/`special_requests`); its field set is
reconstructed from the endpoint's `allowed_fields` lists
(`bookings.py`, lines 422-427) and spec §4.3.  A `none` field is one not
present in the request (`exclude_unset=True`); a `some` field is applied
by `setattr`. -/
structure BookingPatch where
  status : Option BookingStatus
  payment_status : Option PaymentStatus
  special_requests : Option String
  lead_hunter_name : Option String
  lead_hunter_phone : Option String
  lead_hunter_email : Option String
  booking_notes : Option String
  cancellation_reason : Option String
  package_price : Option ℚ
  service_fee : Option ℚ
  taxes : Option ℚ
  total_price : Option ℚ
  check_in_date : Option ℤ
  check_out_date : Option ℤ
  guest_count : Option ℕ
deriving DecidableEq, Repr

/-- The empty patch (no request field set). -/
def emptyPatch : BookingPatch :=
  { status := none, payment_status := none, special_requests := none
    lead_hunter_name := none, lead_hunter_phone := none
    lead_hunter_email := none, booking_notes := none
    cancellation_reason := none, package_price := none, service_fee := none
    taxes := none, total_price := none, check_in_date := none
    check_out_date := none, guest_count := none }

/-- The CONFIRMED-booking field filter of `update_booking`
(`bookings.py`, lines 421-430): keep `special_requests` and the
`lead_hunter_*` fields; admins and providers additionally keep
`booking_notes`, `status` and `cancellation_reason`; every other field is
silently dropped. -/
def filterConfirmedPatch (p : BookingPatch) (role : String) : BookingPatch :=
  let priv : Bool := decide (role = "admin") || decide (role = "provider")
  { emptyPatch with
    special_requests := p.special_requests
    lead_hunter_name := p.lead_hunter_name
    lead_hunter_phone := p.lead_hunter_phone
    lead_hunter_email := p.lead_hunter_email
    booking_notes := if priv then p.booking_notes else none
    status := if priv then p.status else none
    cancellation_reason := if priv then p.cancellation_reason else none }

/-- The `setattr` loop of `update_booking` (`bookings.py`, lines 436-444):
each present field overwrites the row; writing status CANCELLED stamps
`cancelled_at`, writing COMPLETED stamps `completed_at`, and `updated_at`
is always refreshed. -/
def applyPatch (b : Booking) (p : BookingPatch) (now : ℤ) : Booking :=
  { b with
    status := p.status.getD b.status
    cancelled_at :=
      if p.status = some BookingStatus.cancelled then some now else b.cancelled_at
    completed_at :=
      if p.status = some BookingStatus.completed then some now else b.completed_at
    payment_status := p.payment_status.getD b.payment_status
    special_requests := p.special_requests.or b.special_requests
    lead_hunter_name := p.lead_hunter_name.or b.lead_hunter_name
    lead_hunter_phone := p.lead_hunter_phone.or b.lead_hunter_phone
    lead_hunter_email := p.lead_hunter_email.or b.lead_hunter_email
    booking_notes := p.booking_notes.or b.booking_notes
    cancellation_reason := p.cancellation_reason.or b.cancellation_reason
    package_price := p.package_price.getD b.package_price
    service_fee := p.service_fee.getD b.service_fee
    taxes := p.taxes.getD b.taxes
    total_price := p.total_price.getD b.total_price
    check_in_date := p.check_in_date.getD b.check_in_date
    check_out_date := p.check_out_date.getD b.check_out_date
    guest_count := p.guest_count.getD b.guest_count
    updated_at := some now }

/-- The `update_booking` endpoint (`bookings.py`, lines 395-448): the only
rejection is the permission check (`booking.user_id != current_user.id and
current_user.role not in ["admin", "provider"]`); a CONFIRMED booking gets
the restricted field filter, any other status takes the full patch; no
state-machine, pricing or availability validation is re-run. -/
def update_booking (b : Booking) (patch : BookingPatch) (u : UserRec)
    (now : ℤ) : Except ApiErr Booking :=
  if b.user_id ≠ u.id ∧ ¬(u.role = "admin" ∨ u.role = "provider") then
    Except.error ApiErr.forbidden
  else if b.status = BookingStatus.confirmed then
    Except.ok (applyPatch b (filterConfirmedPatch patch u.role) now)
  else
    Except.ok (applyPatch b patch now)

/-- The deadline test of `cancel_booking` (`bookings.py`, line 483):
`booking.booking_deadline and datetime.now(timezone.utc) > booking.booking_deadline`
(a `None` deadline is falsy, so no window is enforced). -/
def deadlineHasPassed (b : Booking) (now : ℤ) : Bool :=
  match b.booking_deadline with
  | some d => decide (now > d)
  | none => false

/-- The `cancel_booking` endpoint (`bookings.py`, lines 450-505):
permission check, CANCELLED/COMPLETED rejection, deadline window for
non-admin/provider actors, then cancellation; a PAID payment_status is
reset to PENDING as a refund-owed marker. -/
def cancel_booking (b : Booking) (u : UserRec) (reason : Option String)
    (now : ℤ) : Except ApiErr Booking :=
  if b.user_id ≠ u.id ∧ ¬(u.role = "admin" ∨ u.role = "provider") then
    Except.error ApiErr.forbidden
  else if b.status = BookingStatus.cancelled ∨ b.status = BookingStatus.completed then
    Except.error ApiErr.notCancellable
  else if deadlineHasPassed b now ∧ ¬(u.role = "admin" ∨ u.role = "provider") then
    Except.error ApiErr.deadlinePassed
  else
    Except.ok
      { b with
        status := BookingStatus.cancelled
        cancellation_reason := reason
        cancelled_at := some now
        payment_status :=
          if b.payment_status = PaymentStatus.paid then PaymentStatus.pending
          else b.payment_status }

/-- The `confirm_booking` endpoint (`bookings.py`, lines 507-555): guest or
admin may confirm a PENDING booking; the row is unconditionally marked
CONFIRMED with payment_status PAID and `confirmed_at` stamped.  The
`payments` table is passed in to make explicit that the handler never
consults it. -/
def confirm_booking (b : Booking) (u : UserRec) (payments : List PaymentRec)
    (now : ℤ) : Except ApiErr Booking :=
  let _ := payments
  if b.user_id ≠ u.id ∧ u.role ≠ "admin" then
    Except.error ApiErr.forbidden
  else if b.status ≠ BookingStatus.pending then
    Except.error ApiErr.notPending
  else
    Except.ok
      { b with
        status := BookingStatus.confirmed
        payment_status := PaymentStatus.paid
        confirmed_at := some now }

/-- `BookingService.complete_booking` (`booking_service.py`,
lines 256-270): only CONFIRMED bookings can be completed. -/
def complete_booking (b : Booking) (now : ℤ) : Except ApiErr Booking :=
  if b.status ≠ BookingStatus.confirmed then
    Except.error ApiErr.onlyConfirmedCompletable
  else
    Except.ok
      { b with
        status := BookingStatus.completed
        completed_at := some now
        updated_at := some now }

/-- The single package of the C3 scenario: base price 100, up to 4 guests. -/
def c3Package : HuntingPackage :=
  { id := some "pkg1", name := some "Weekend Hunt", price := some 100
    base_price := none, maxHunters := none, max_hunters := some 4 }

/-- An APPROVED, listed property carrying `c3Package`. -/
def c3Property : PropertyRec :=
  { id := 1, provider_id := 2, status := PropertyStatus.approved
    is_listed := true, hunting_packages := [c3Package] }

/-- A creation request whose package price is correct (100 × 2 guests) but
whose submitted total is 999999 against a computed total of 220. -/
def c3Input : BookingCreate :=
  { property_id := 1, check_in_date := 0, check_out_date := 2
    guest_count := 2, hunting_package_id := "pkg1"
    hunting_package_name := "Weekend Hunt"
    package_price := 200, service_fee := 20, taxes := 0
    total_price := 999999
    lead_hunter_name := none, lead_hunter_phone := none
    lead_hunter_email := none, special_requests := none }

/-- Counterexample to claim C3: the booking-creation endpoint accepts a
submitted `total_price` of 999999 although the computed total for this
package and guest count is 220 — a delta far beyond the claimed 0.01
tolerance — because the endpoint only validates `package_price`. -/
theorem C3_counterexample :
    isSuccess (create_booking [c3Property] [] c3Input 10 1) = true ∧
      |c3Input.total_price - 220| > 1/100 := by
  constructor
  · norm_num [create_booking, c3Property, c3Package, c3Input, propertyQuery,
      packageQuery, pkgMaxHunters, pkgBasePrice, isSuccess, List.find?,
      List.any]
  · norm_num [c3Input]

/-- Claim C3 as amended: given that the property and package lookups
succeed, the guest count is in range, and the dates are available, the
booking-creation endpoint accepts the request exactly when the submitted
`package_price` is within 0.01 of `base_price * guest_count`; the
submitted `total_price` is not validated at all (it is universally
quantified here and absent from the acceptance condition). -/
theorem C3_amended_price_gate (props : List PropertyRec) (db : List Booking)
    (booking_in : BookingCreate) (uid newId : ℕ)
    (prop : PropertyRec) (pkg : HuntingPackage)
    (hprop : props.find? (propertyQuery booking_in.property_id) = some prop)
    (hpkg : prop.hunting_packages.find? (packageQuery booking_in) = some pkg)
    (hguest : booking_in.guest_count ≤ pkgMaxHunters pkg)
    (havail : db.any (blocksBooking booking_in.property_id
      booking_in.check_in_date booking_in.check_out_date none) = false) :
    (isSuccess (create_booking props db booking_in uid newId) = true ↔
      |booking_in.package_price -
        pkgBasePrice pkg * (booking_in.guest_count : ℚ)| ≤ 1/100) := by
  unfold create_booking
  rw [hprop]
  dsimp only
  rw [hpkg]
  dsimp only
  rw [if_neg (by omega)]
  by_cases hp : |booking_in.package_price -
      pkgBasePrice pkg * (booking_in.guest_count : ℚ)| > 1/100
  · rw [if_pos hp]
    simp only [isSuccess, Bool.false_eq_true, false_iff, not_le]
    exact hp
  · rw [if_neg hp, havail]
    simp only [Bool.false_eq_true, if_false, isSuccess, true_iff]
    exact not_lt.mp hp

/-- The C3 request with the honest total 220 instead of 999999, for the
witness instantiation. -/
def c3WitnessInput : BookingCreate :=
  { c3Input with total_price := 220 }

/-- Witness for the amended C3 theorem at the concrete scenario. -/
theorem C3_amended_price_gate_witness :
    isSuccess (create_booking [c3Property] [] c3WitnessInput 10 1) = true ↔
      |c3WitnessInput.package_price -
        pkgBasePrice c3Package * (c3WitnessInput.guest_count : ℚ)| ≤ 1/100 :=
  C3_amended_price_gate [c3Property] [] c3WitnessInput 10 1 c3Property
    c3Package rfl rfl (by decide) rfl

/-- A CANCELLED booking, for exercising the update path of claim C5. -/
def c5Booking : Booking :=
  { baseBooking with status := BookingStatus.cancelled }

/-- The C5 actor: the booking's own guest (no admin/provider role). -/
def c5User : UserRec := { id := 10, role := "user" }

/-- A patch that writes status CONFIRMED. -/
def c5Patch : BookingPatch :=
  { emptyPatch with status := some BookingStatus.confirmed }

/-- Counterexample to claim C5: `update_booking` lets the guest move a
CANCELLED booking straight to CONFIRMED — a transition outside the claimed
state machine — succeeding and mutating the row instead of failing with
InvalidStateTransition. -/
theorem C5_counterexample :
    update_booking c5Booking c5Patch c5User 100 =
      Except.ok { c5Booking with
        status := BookingStatus.confirmed
        updated_at := some 100 } := by
  rfl

/-- Claim C5 as amended: `cancel_booking` refuses CANCELLED/COMPLETED
bookings and `complete_booking` requires CONFIRMED, but `update_booking`
enforces no state machine: on any non-CONFIRMED booking an authorized
actor can write any status value whatsoever. -/
theorem C5_amended_state_machine :
    (∀ (b : Booking) (u : UserRec) (reason : Option String) (now : ℤ),
      (b.status = BookingStatus.cancelled ∨ b.status = BookingStatus.completed) →
      isSuccess (cancel_booking b u reason now) = false) ∧
    (∀ (b : Booking) (now : ℤ),
      b.status ≠ BookingStatus.confirmed →
      isSuccess (complete_booking b now) = false) ∧
    (∀ (b : Booking) (u : UserRec) (patch : BookingPatch) (now : ℤ)
      (s : BookingStatus),
      b.status ≠ BookingStatus.confirmed →
      (b.user_id = u.id ∨ u.role = "admin" ∨ u.role = "provider") →
      patch.status = some s →
      update_booking b patch u now = Except.ok (applyPatch b patch now) ∧
        (applyPatch b patch now).status = s) := by
  refine ⟨?_, ?_, ?_⟩
  · intro b u reason now h
    unfold cancel_booking
    by_cases hc : b.user_id ≠ u.id ∧ ¬(u.role = "admin" ∨ u.role = "provider")
    · rw [if_pos hc]
      rfl
    · rw [if_neg hc, if_pos h]
      rfl
  · intro b now h
    unfold complete_booking
    rw [if_pos h]
    rfl
  · intro b u patch now s hst hperm hs
    have h1 : update_booking b patch u now = Except.ok (applyPatch b patch now) := by
      unfold update_booking
      rw [if_neg (by tauto), if_neg hst]
    exact ⟨h1, by simp [applyPatch, hs]⟩

/-- Witness for the amended C5 theorem: cancelling the already-CANCELLED
concrete booking fails. -/
theorem C5_amended_state_machine_witness :
    isSuccess (cancel_booking c5Booking c5User none 0) = false :=
  C5_amended_state_machine.1 c5Booking c5User none 0 (Or.inl rfl)

/-- The C8 booking: guest is user 10, property 1 (owned by provider 2 in
the C3 scenario); `c8User` below is an unrelated provider. -/
def c8Booking : Booking := baseBooking

/-- A user with role `provider` who owns nothing related to the booking
(id 99 matches neither the guest nor any property provider). -/
def c8User : UserRec := { id := 99, role := "provider" }

/-- A patch cancelling the booking. -/
def c8Patch : BookingPatch :=
  { emptyPatch with status := some BookingStatus.cancelled }

/-- Counterexample to claim C8: both `update_booking` and `cancel_booking`
accept an actor whose only credential is the `provider` role string —
neither handler ever reads the property row, so ownership of the booking's
property cannot be and is not checked, and the booking is modified. -/
theorem C8_counterexample :
    update_booking c8Booking c8Patch c8User 50 =
        Except.ok { c8Booking with
          status := BookingStatus.cancelled
          cancelled_at := some 50
          updated_at := some 50 } ∧
      isSuccess (cancel_booking c8Booking c8User none 50) = true := by
  exact ⟨rfl, rfl⟩

/-- Claim C8 as amended: update succeeds exactly for the booking's guest or
any actor whose role is `admin` or `provider` (property ownership is never
consulted); under the same actor condition cancel succeeds too, provided
the booking is cancellable and the deadline window is open. -/
theorem C8_amended_role_gate :
    (∀ (b : Booking) (patch : BookingPatch) (u : UserRec) (now : ℤ),
      isSuccess (update_booking b patch u now) = true ↔
        (b.user_id = u.id ∨ u.role = "admin" ∨ u.role = "provider")) ∧
    (∀ (b : Booking) (u : UserRec) (reason : Option String) (now : ℤ),
      b.status ≠ BookingStatus.cancelled →
      b.status ≠ BookingStatus.completed →
      deadlineHasPassed b now = false →
      (isSuccess (cancel_booking b u reason now) = true ↔
        (b.user_id = u.id ∨ u.role = "admin" ∨ u.role = "provider"))) := by
  constructor
  · intro b patch u now
    unfold update_booking
    by_cases hcond : b.user_id ≠ u.id ∧ ¬(u.role = "admin" ∨ u.role = "provider")
    · rw [if_pos hcond]
      simp only [isSuccess, Bool.false_eq_true, false_iff]
      tauto
    · rw [if_neg hcond]
      have hok : isSuccess
          (if b.status = BookingStatus.confirmed then
            Except.ok (applyPatch b (filterConfirmedPatch patch u.role) now)
          else (Except.ok (applyPatch b patch now) : Except ApiErr Booking)) =
          true := by
        by_cases hcf : b.status = BookingStatus.confirmed
        · rw [if_pos hcf]
          rfl
        · rw [if_neg hcf]
          rfl
      rw [hok]
      simp only [true_iff]
      tauto
  · intro b u reason now h1 h2 h3
    unfold cancel_booking
    by_cases hcond : b.user_id ≠ u.id ∧ ¬(u.role = "admin" ∨ u.role = "provider")
    · rw [if_pos hcond]
      simp only [isSuccess, Bool.false_eq_true, false_iff]
      tauto
    · rw [if_neg hcond, if_neg (by tauto), if_neg (by simp [h3])]
      simp only [isSuccess, true_iff]
      tauto

/-- Witness for the amended C8 theorem: the unrelated provider passes the
cancel permission gate on the concrete PENDING booking. -/
theorem C8_amended_role_gate_witness :
    isSuccess (cancel_booking c8Booking c8User none 50) = true ↔
      (c8Booking.user_id = c8User.id ∨ c8User.role = "admin" ∨
        c8User.role = "provider") :=
  C8_amended_role_gate.2 c8Booking c8User none 50 (by decide) (by decide) rfl

/-- The C9 actor: the booking's guest. -/
def c9User : UserRec := { id := 10, role := "user" }

/-- Claim C9: for a PENDING booking the confirm endpoint, called by the
guest or an admin, unconditionally sets status CONFIRMED, payment_status
PAID and stamps `confirmed_at` — and its result is identical for every
payments table, in particular the empty one: no Payment row and no capture
are required. -/
theorem C9_confirm_unconditional (b : Booking) (u : UserRec)
    (payments : List PaymentRec) (now : ℤ)
    (hst : b.status = BookingStatus.pending)
    (hperm : b.user_id = u.id ∨ u.role = "admin") :
    confirm_booking b u payments now =
        Except.ok { b with
          status := BookingStatus.confirmed
          payment_status := PaymentStatus.paid
          confirmed_at := some now } ∧
      confirm_booking b u payments now = confirm_booking b u [] now := by
  unfold confirm_booking
  rw [if_neg (by tauto), if_neg (by simp [hst])]
  exact ⟨rfl, rfl⟩

/-- Witness for C9 at the concrete PENDING booking with an empty payments
table. -/
theorem C9_confirm_unconditional_witness :
    confirm_booking baseBooking c9User [] 77 =
        Except.ok { baseBooking with
          status := BookingStatus.confirmed
          payment_status := PaymentStatus.paid
          confirmed_at := some 77 } ∧
      confirm_booking baseBooking c9User [] 77 =
        confirm_booking baseBooking c9User [] 77 :=
  C9_confirm_unconditional baseBooking c9User [] 77 rfl (Or.inl rfl)

/-- Claim C10: on any non-CONFIRMED booking, `update_booking` applies every
field present in the patch — prices, fees, taxes, total, dates, guest
count and status alike — with no pricing or availability revalidation (the
patch values are arbitrary here, including mutually inconsistent ones). -/
theorem C10_update_applies_all_fields (b : Booking) (patch : BookingPatch)
    (u : UserRec) (now : ℤ)
    (hst : b.status ≠ BookingStatus.confirmed)
    (hperm : b.user_id = u.id ∨ u.role = "admin" ∨ u.role = "provider") :
    update_booking b patch u now = Except.ok (applyPatch b patch now) ∧
      (applyPatch b patch now).package_price =
        patch.package_price.getD b.package_price ∧
      (applyPatch b patch now).service_fee =
        patch.service_fee.getD b.service_fee ∧
      (applyPatch b patch now).taxes = patch.taxes.getD b.taxes ∧
      (applyPatch b patch now).total_price =
        patch.total_price.getD b.total_price ∧
      (applyPatch b patch now).check_in_date =
        patch.check_in_date.getD b.check_in_date ∧
      (applyPatch b patch now).check_out_date =
        patch.check_out_date.getD b.check_out_date ∧
      (applyPatch b patch now).guest_count =
        patch.guest_count.getD b.guest_count ∧
      (applyPatch b patch now).status = patch.status.getD b.status := by
  refine ⟨?_, rfl, rfl, rfl, rfl, rfl, rfl, rfl, rfl⟩
  unfold update_booking
  rw [if_neg (by tauto), if_neg hst]

/-- The C10 actor: the booking's guest. -/
def c10User : UserRec := { id := 10, role := "user" }

/-- A patch rewriting every price field, both dates, the guest count and
the status to values no validation would ever produce. -/
def c10Patch : BookingPatch :=
  { emptyPatch with
    package_price := some 1, service_fee := some 2, taxes := some 3
    total_price := some 4, check_in_date := some 9, check_out_date := some 3
    guest_count := some 50, status := some BookingStatus.refunded }

/-- Witness for C10 at the concrete PENDING booking and the adversarial
patch. -/
theorem C10_update_applies_all_fields_witness :
    update_booking baseBooking c10Patch c10User 60 =
        Except.ok (applyPatch baseBooking c10Patch 60) ∧
      (applyPatch baseBooking c10Patch 60).package_price =
        c10Patch.package_price.getD baseBooking.package_price ∧
      (applyPatch baseBooking c10Patch 60).service_fee =
        c10Patch.service_fee.getD baseBooking.service_fee ∧
      (applyPatch baseBooking c10Patch 60).taxes =
        c10Patch.taxes.getD baseBooking.taxes ∧
      (applyPatch baseBooking c10Patch 60).total_price =
        c10Patch.total_price.getD baseBooking.total_price ∧
      (applyPatch baseBooking c10Patch 60).check_in_date =
        c10Patch.check_in_date.getD baseBooking.check_in_date ∧
      (applyPatch baseBooking c10Patch 60).check_out_date =
        c10Patch.check_out_date.getD baseBooking.check_out_date ∧
      (applyPatch baseBooking c10Patch 60).guest_count =
        c10Patch.guest_count.getD baseBooking.guest_count ∧
      (applyPatch baseBooking c10Patch 60).status =
        c10Patch.status.getD baseBooking.status :=
  C10_update_applies_all_fields baseBooking c10Patch c10User 60
    (by decide) (Or.inl rfl)

/-- Per-booking payment-orchestrator state: the booking row plus its
`payments` rows (the endpoints in `payments.py` always operate on one
booking's payments, located through the Stripe intent id or the booking
id). -/
structure PayWorld where
  booking : Booking
  payments : List PaymentRec
deriving DecidableEq, Repr

/-- `query.first()`-then-mutate on a list of rows: the first row satisfying
`pred` is replaced by `f` of itself; other rows are untouched. -/
def updateFirst {α : Type} (pred : α → Bool) (f : α → α) : List α → List α
  | [] => []
  | p :: ps => if pred p then f p :: ps else p :: updateFirst pred f ps

/-- The live-payment filter of `create_payment_intent` (`payments.py`,
lines 83-86): status in PENDING/AUTHORIZED. -/
def isLivePayment (p : PaymentRec) : Bool :=
  decide (p.status = PaymentStatus.pending) ||
  decide (p.status = PaymentStatus.authorized)

/-- Number of live (PENDING/AUTHORIZED) payments in a payments table. -/
def liveCount (ps : List PaymentRec) : ℕ :=
  ps.countP isLivePayment

/-- The payment lookup by Stripe intent id used by `confirm_authorization`
and every webhook branch. -/
def intentQuery (intent_id : String) (p : PaymentRec) : Bool :=
  decide (p.stripe_payment_intent_id = intent_id)

/-- `expected_amount = int(booking.total_price * 100)` (`payments.py`,
line 75): note `int(...)` truncation, not `round(...)`. -/
def expectedAmountCents (total_price : ℚ) : ℤ :=
  pyInt (total_price * 100)

/-- The Payment row persisted by `create_payment_intent` (`payments.py`,
lines 173-181): PENDING status, amount stored back in major units, capture
deadline seven days out. -/
def newPendingPayment (newId bookingId : ℕ) (intent : String)
    (amountCents : ℤ) (now : ℤ) : PaymentRec :=
  { id := newId
    booking_id := bookingId
    stripe_payment_intent_id := intent
    amount := (amountCents : ℚ) / 100
    status := PaymentStatus.pending
    authorized_at := none, captured_at := none, cancelled_at := none
    completed_at := none
    capture_deadline := some (now + 7 * oneDay)
    failure_reason := none, cancellation_reason := none
    refund_amount := none, refund_reason := none, updated_at := none }

/-- The payments-table effect of `create_payment_intent` (`payments.py`,
lines 82-185) once all validations passed: reuse a live payment's intent if
Stripe can still retrieve it (`retrieveOk`), otherwise delete that stale
row and append a fresh PENDING payment; with no live payment, just append
the fresh one. -/
def createIntentPayments (ps : List PaymentRec) (bookingId : ℕ)
    (amount : ℤ) (retrieveOk : Bool) (newId : ℕ) (newIntent : String)
    (now : ℤ) : List PaymentRec :=
  match ps.find? isLivePayment with
  | some _ =>
    if retrieveOk then ps
    else ps.eraseP isLivePayment ++
      [newPendingPayment newId bookingId newIntent amount now]
  | none => ps ++ [newPendingPayment newId bookingId newIntent amount now]

/-- The `create_payment_intent` endpoint (`payments.py`, lines 40-206):
ownership, PENDING-booking and amount checks — each raising before any
Payment row is touched or any Stripe call is made — then the payments-table
effect above.  `retrieveOk` is the processor's answer when an existing
intent is re-retrieved. -/
def create_payment_intent (w : PayWorld) (uid : ℕ) (amount : ℤ)
    (retrieveOk : Bool) (newId : ℕ) (newIntent : String) (now : ℤ) :
    Except ApiErr PayWorld :=
  if w.booking.user_id ≠ uid then Except.error ApiErr.bookingNotFound
  else if w.booking.status ≠ BookingStatus.pending then
    Except.error ApiErr.bookingNotPending
  else if amount ≠ expectedAmountCents w.booking.total_price then
    Except.error ApiErr.amountMismatch
  else
    Except.ok
      { w with
        payments := createIntentPayments w.payments w.booking.id
          amount retrieveOk newId newIntent now }

/-- The `confirm_authorization` endpoint (`payments.py`, lines 208-298):
locate the payment by intent id, check ownership, then — whenever the
processor reports the intent as `requires_capture` — apply the AUTHORIZED
transition unconditionally: there is no check of the payment's current
status, and `authorized_at` plus all booking-side stamps are (re)written
with the current time. -/
def confirm_authorization (w : PayWorld) (intent_id : String) (uid : ℕ)
    (intentStatus : String) (now : ℤ) : Except ApiErr PayWorld :=
  match w.payments.find? (intentQuery intent_id) with
  | none => Except.error ApiErr.paymentNotFound
  | some _ =>
    if w.booking.user_id ≠ uid then Except.error ApiErr.forbidden
    else if intentStatus = "requires_capture" then
      Except.ok
        { booking :=
            { w.booking with
              status := BookingStatus.pending
              payment_status := PaymentStatus.authorized
              payment_authorized_at := some now
              provider_notified_at := some now
              provider_response_deadline := some (now + 5 * oneDay)
              updated_at := some now }
          payments := updateFirst (intentQuery intent_id)
            (fun p => { p with
              status := PaymentStatus.authorized
              authorized_at := some now }) w.payments }
    else Except.error ApiErr.authorizationNotSuccessful

/-- The webhook `payment_intent.amount_capturable_updated` branch
(`payments.py`, lines 556-577): applies the AUTHORIZED transition only if
the payment's current status is PENDING; otherwise (or when no payment
matches the intent) it is a no-op. -/
def webhook_amount_capturable (w : PayWorld) (intent_id : String)
    (now : ℤ) : PayWorld :=
  match w.payments.find? (intentQuery intent_id) with
  | none => w
  | some payment =>
    if payment.status = PaymentStatus.pending then
      { booking :=
          { w.booking with
            payment_status := PaymentStatus.authorized
            payment_authorized_at := some now
            updated_at := some now }
        payments := updateFirst (intentQuery intent_id)
          (fun p => { p with
            status := PaymentStatus.authorized
            authorized_at := some now }) w.payments }
    else w

/-- The webhook `payment_intent.succeeded` branch (`payments.py`,
lines 579-607): applies only if the payment is currently AUTHORIZED. -/
def webhook_succeeded (w : PayWorld) (intent_id : String) (now : ℤ) :
    PayWorld :=
  match w.payments.find? (intentQuery intent_id) with
  | none => w
  | some payment =>
    if payment.status = PaymentStatus.authorized then
      { booking :=
          { w.booking with
            status := BookingStatus.confirmed
            payment_status := PaymentStatus.paid
            confirmed_at := some now }
        payments := updateFirst (intentQuery intent_id)
          (fun p => { p with
            status := PaymentStatus.paid
            completed_at := some now
            captured_at := some now }) w.payments }
    else w

/-- The webhook `payment_intent.canceled` branch (`payments.py`,
lines 609-632): cancels the payment regardless of its current status; the
booking is cancelled only if not already CANCELLED. -/
def webhook_canceled (w : PayWorld) (intent_id : String) (now : ℤ) :
    PayWorld :=
  match w.payments.find? (intentQuery intent_id) with
  | none => w
  | some _ =>
    { booking :=
        if w.booking.status ≠ BookingStatus.cancelled then
          { w.booking with
            status := BookingStatus.cancelled
            payment_status := PaymentStatus.cancelled
            cancelled_at := some now }
        else w.booking
      payments := updateFirst (intentQuery intent_id)
        (fun p => { p with
          status := PaymentStatus.cancelled
          cancelled_at := some now
          updated_at := some now }) w.payments }

/-- The webhook `payment_intent.payment_failed` branch (`payments.py`,
lines 634-649): marks the payment FAILED with no status guard; the booking
row is untouched. -/
def webhook_payment_failed (w : PayWorld) (intent_id : String)
    (reason : Option String) : PayWorld :=
  match w.payments.find? (intentQuery intent_id) with
  | none => w
  | some _ =>
    { w with
      payments := updateFirst (intentQuery intent_id)
        (fun p => { p with
          status := PaymentStatus.failed
          failure_reason :=
            match reason with
            | some r => some r
            | none => p.failure_reason }) w.payments }

/-- One payment operation of the orchestrator/reconciler, with the
processor's answers (`retrieveOk`, `intentStatus`, webhook payloads) as
inputs. -/
inductive PayOp where
  | createIntent (uid : ℕ) (amount : ℤ) (retrieveOk : Bool) (newId : ℕ)
      (newIntent : String) (now : ℤ)
  | confirmAuth (intent_id : String) (uid : ℕ) (intentStatus : String)
      (now : ℤ)
  | whCapturable (intent_id : String) (now : ℤ)
  | whSucceeded (intent_id : String) (now : ℤ)
  | whCanceled (intent_id : String) (now : ℤ)
  | whFailed (intent_id : String) (reason : Option String)
deriving DecidableEq, Repr

/-- Apply one payment operation; an endpoint that raises leaves the stored
state unchanged. -/
def applyPayOp (w : PayWorld) : PayOp → PayWorld
  | PayOp.createIntent uid amount retrieveOk newId newIntent now =>
    match create_payment_intent w uid amount retrieveOk newId newIntent now with
    | Except.ok w2 => w2
    | Except.error _ => w
  | PayOp.confirmAuth intent_id uid intentStatus now =>
    match confirm_authorization w intent_id uid intentStatus now with
    | Except.ok w2 => w2
    | Except.error _ => w
  | PayOp.whCapturable intent_id now => webhook_amount_capturable w intent_id now
  | PayOp.whSucceeded intent_id now => webhook_succeeded w intent_id now
  | PayOp.whCanceled intent_id now => webhook_canceled w intent_id now
  | PayOp.whFailed intent_id reason => webhook_payment_failed w intent_id reason

/-- Run a sequence of payment operations. -/
def runPayOps (w : PayWorld) (ops : List PayOp) : PayWorld :=
  ops.foldl applyPayOp w

/-- `find?` after `updateFirst` with the same predicate finds the updated
row, provided the update preserves the predicate. -/
theorem find?_updateFirst {α : Type} (pred : α → Bool) (f : α → α)
    (hpf : ∀ a, pred (f a) = pred a) :
    ∀ l : List α, (updateFirst pred f l).find? pred = (l.find? pred).map f := by
  intro l
  induction l with
  | nil => rfl
  | cons p ps ih =>
    by_cases hp : pred p = true
    · simp [updateFirst, hp, List.find?_cons_of_pos, hpf]
    · have hp' : pred p = false := by
        cases h : pred p
        · rfl
        · exact absurd h hp
      simp [updateFirst, hp', List.find?_cons_of_neg, ih, hpf]

/-- Two `updateFirst` passes with the same predicate compose, provided the
first update preserves the predicate. -/
theorem updateFirst_updateFirst {α : Type} (pred : α → Bool) (f g : α → α)
    (hpf : ∀ a, pred (f a) = pred a) :
    ∀ l : List α,
      updateFirst pred g (updateFirst pred f l) =
        updateFirst pred (fun a => g (f a)) l := by
  intro l
  induction l with
  | nil => rfl
  | cons p ps ih =>
    by_cases hp : pred p = true
    · simp [updateFirst, hp, hpf]
    · have hp' : pred p = false := by
        cases h : pred p
        · rfl
        · exact absurd h hp
      simp [updateFirst, hp', ih]

/-- The one live payment of the C4 scenario (intent `pi_1`, PENDING). -/
def c4Payment : PaymentRec :=
  { id := 1, booking_id := 1, stripe_payment_intent_id := "pi_1"
    amount := 220, status := PaymentStatus.pending
    authorized_at := none, captured_at := none, cancelled_at := none
    completed_at := none, capture_deadline := some (7 * oneDay)
    failure_reason := none, cancellation_reason := none
    refund_amount := none, refund_reason := none, updated_at := none }

/-- The C4 start state: the concrete PENDING booking plus `c4Payment`. -/
def c4World : PayWorld := { booking := baseBooking, payments := [c4Payment] }

/-- The state after a first successful `confirm_authorization` at time 1. -/
def c4World1 : PayWorld :=
  { booking :=
      { baseBooking with
        status := BookingStatus.pending
        payment_status := PaymentStatus.authorized
        payment_authorized_at := some 1
        provider_notified_at := some 1
        provider_response_deadline := some (1 + 5 * oneDay)
        updated_at := some 1 }
    payments := [{ c4Payment with
      status := PaymentStatus.authorized
      authorized_at := some 1 }] }

/-- The state after a second `confirm_authorization` at time 2. -/
def c4World2 : PayWorld :=
  { booking :=
      { baseBooking with
        status := BookingStatus.pending
        payment_status := PaymentStatus.authorized
        payment_authorized_at := some 2
        provider_notified_at := some 2
        provider_response_deadline := some (2 + 5 * oneDay)
        updated_at := some 2 }
    payments := [{ c4Payment with
      status := PaymentStatus.authorized
      authorized_at := some 2 }] }

/-- Counterexample to claim C4: with the processor reporting the hold as
held, calling `confirm_authorization` twice succeeds both times and applies
the transition both times — the payment is already AUTHORIZED on the second
call (no PENDING guard exists on this path) and `authorized_at` is
re-stamped from `some 1` to `some 2`, so the claimed single stamping and
PENDING guard are false. -/
theorem C4_counterexample :
    confirm_authorization c4World "pi_1" 10 "requires_capture" 1 =
        Except.ok c4World1 ∧
      confirm_authorization c4World1 "pi_1" 10 "requires_capture" 2 =
        Except.ok c4World2 ∧
      c4World1.payments.map PaymentRec.authorized_at = [some 1] ∧
      c4World2.payments.map PaymentRec.authorized_at = [some 2] := by
  refine ⟨rfl, rfl, rfl, rfl⟩

/-- Claim C4 as amended: the webhook capturable handler is guarded on
PENDING and idempotent (a repeat delivery is a no-op), and a webhook
arriving after a successful `confirm_authorization` is a no-op; but
`confirm_authorization` itself is unguarded — whenever the processor
reports `requires_capture` a repeat call succeeds and re-applies the whole
transition as if it were the first (re-stamping `authorized_at` and the
booking timestamps with the later time). -/
theorem C4_amended_guarded_paths :
    (∀ (w : PayWorld) (intent_id : String) (t1 t2 : ℤ),
      webhook_amount_capturable (webhook_amount_capturable w intent_id t1)
          intent_id t2 =
        webhook_amount_capturable w intent_id t1) ∧
    (∀ (w w2 : PayWorld) (intent_id : String) (uid : ℕ) (t1 t2 : ℤ),
      confirm_authorization w intent_id uid "requires_capture" t1 =
        Except.ok w2 →
      webhook_amount_capturable w2 intent_id t2 = w2) ∧
    (∀ (w w2 : PayWorld) (intent_id : String) (uid : ℕ) (t1 t2 : ℤ),
      confirm_authorization w intent_id uid "requires_capture" t1 =
        Except.ok w2 →
      confirm_authorization w2 intent_id uid "requires_capture" t2 =
        confirm_authorization w intent_id uid "requires_capture" t2) := by
  refine ⟨?_, ?_, ?_⟩
  · intro w intent_id t1 t2
    cases hfind : w.payments.find? (intentQuery intent_id) with
    | none =>
      have h1 : ∀ t : ℤ, webhook_amount_capturable w intent_id t = w := by
        intro t
        simp only [webhook_amount_capturable, hfind]
      rw [h1 t1, h1 t2]
    | some p =>
      by_cases hp : p.status = PaymentStatus.pending
      · have h1 : webhook_amount_capturable w intent_id t1 =
            { booking :=
                { w.booking with
                  payment_status := PaymentStatus.authorized
                  payment_authorized_at := some t1
                  updated_at := some t1 }
              payments := updateFirst (intentQuery intent_id)
                (fun q => { q with
                  status := PaymentStatus.authorized
                  authorized_at := some t1 }) w.payments } := by
          simp only [webhook_amount_capturable, hfind, hp, if_true]
        rw [h1]
        have hf2 : (updateFirst (intentQuery intent_id)
            (fun q => { q with
              status := PaymentStatus.authorized
              authorized_at := some t1 }) w.payments).find?
              (intentQuery intent_id) =
            some { p with
              status := PaymentStatus.authorized
              authorized_at := some t1 } := by
          rw [find?_updateFirst (intentQuery intent_id)
            (fun q => { q with
              status := PaymentStatus.authorized
              authorized_at := some t1 }) (fun a => rfl), hfind]
          rfl
        simp only [webhook_amount_capturable, hf2]
        rw [if_neg (by simp)]
      · have h1 : ∀ t : ℤ, webhook_amount_capturable w intent_id t = w := by
          intro t
          simp only [webhook_amount_capturable, hfind, if_neg hp]
        rw [h1 t1, h1 t2]
  · intro w w2 intent_id uid t1 t2 hconfirm
    unfold confirm_authorization at hconfirm
    cases hfind : w.payments.find? (intentQuery intent_id) with
    | none =>
      rw [hfind] at hconfirm
      exact absurd hconfirm (by simp)
    | some p =>
      rw [hfind] at hconfirm
      simp only at hconfirm
      by_cases huid : w.booking.user_id ≠ uid
      · rw [if_pos huid] at hconfirm
        exact absurd hconfirm (by simp)
      · rw [if_neg huid] at hconfirm
        simp only [if_true] at hconfirm
        injection hconfirm with hw2
        subst hw2
        have hf2 : (updateFirst (intentQuery intent_id)
            (fun q => { q with
              status := PaymentStatus.authorized
              authorized_at := some t1 }) w.payments).find?
              (intentQuery intent_id) =
            some { p with
              status := PaymentStatus.authorized
              authorized_at := some t1 } := by
          rw [find?_updateFirst (intentQuery intent_id)
            (fun q => { q with
              status := PaymentStatus.authorized
              authorized_at := some t1 }) (fun a => rfl), hfind]
          rfl
        simp only [webhook_amount_capturable, hf2]
        rw [if_neg (by simp)]
  · intro w w2 intent_id uid t1 t2 hconfirm
    unfold confirm_authorization at hconfirm
    cases hfind : w.payments.find? (intentQuery intent_id) with
    | none =>
      rw [hfind] at hconfirm
      exact absurd hconfirm (by simp)
    | some p =>
      rw [hfind] at hconfirm
      simp only at hconfirm
      by_cases huid : w.booking.user_id ≠ uid
      · rw [if_pos huid] at hconfirm
        exact absurd hconfirm (by simp)
      · rw [if_neg huid] at hconfirm
        simp only [if_true] at hconfirm
        injection hconfirm with hw2
        subst hw2
        have huideq : w.booking.user_id = uid := not_ne_iff.mp huid
        have hf2 : (updateFirst (intentQuery intent_id)
            (fun q => { q with
              status := PaymentStatus.authorized
              authorized_at := some t1 }) w.payments).find?
              (intentQuery intent_id) =
            some { p with
              status := PaymentStatus.authorized
              authorized_at := some t1 } := by
          rw [find?_updateFirst (intentQuery intent_id)
            (fun q => { q with
              status := PaymentStatus.authorized
              authorized_at := some t1 }) (fun a => rfl), hfind]
          rfl
        have hcomp : updateFirst (intentQuery intent_id)
            (fun q => { q with
              status := PaymentStatus.authorized
              authorized_at := some t2 })
            (updateFirst (intentQuery intent_id)
              (fun q => { q with
                status := PaymentStatus.authorized
                authorized_at := some t1 }) w.payments) =
            updateFirst (intentQuery intent_id)
              (fun q => { q with
                status := PaymentStatus.authorized
                authorized_at := some t2 }) w.payments := by
          rw [updateFirst_updateFirst (intentQuery intent_id)
            (fun q => { q with
              status := PaymentStatus.authorized
              authorized_at := some t1 })
            (fun q => { q with
              status := PaymentStatus.authorized
              authorized_at := some t2 }) (fun a => rfl)]
        simp only [confirm_authorization, hf2, hfind, huideq, ne_eq,
          eq_self_iff_true, not_true_eq_false, if_false, if_true, hcomp]

/-- Witness for the amended C4 theorem: a webhook delivered after the
concrete successful confirmation leaves the state untouched. -/
theorem C4_amended_guarded_paths_witness :
    webhook_amount_capturable c4World1 "pi_1" 2 = c4World1 :=
  C4_amended_guarded_paths.2.1 c4World c4World1 "pi_1" 10 1 2 rfl

/-- A list with no row matching `pred` has `countP pred` zero. -/
theorem countP_eq_zero_of_find?_none {α : Type} (pred : α → Bool)
    (l : List α) (h : l.find? pred = none) : l.countP pred = 0 := by
  rw [List.countP_eq_zero]
  intro a ha
  exact List.find?_eq_none.mp h a ha

/-- Erasing the first matching row decrements `countP` by exactly one when
a matching row exists. -/
theorem countP_eraseP_add_one {α : Type} (pred : α → Bool) :
    ∀ (l : List α) (x : α), l.find? pred = some x →
      (l.eraseP pred).countP pred + 1 = l.countP pred := by
  intro l
  induction l with
  | nil => intro x h; cases h
  | cons a as ih =>
    intro x h
    by_cases ha : pred a = true
    · rw [List.eraseP_cons_of_pos ha, List.countP_cons_of_pos _ _ ha]
    · rw [List.find?_cons_of_neg _ ha] at h
      rw [List.eraseP_cons_of_neg ha, List.countP_cons_of_neg _ _ ha,
        List.countP_cons_of_neg _ _ ha, ih x h]

/-- The C6/C7 start state: the concrete PENDING booking (total 220) with no
payments. -/
def c6World : PayWorld := { booking := baseBooking, payments := [] }

/-- The C6 operation sequence: create an intent, have its authorization
fail, create a replacement intent, then deliver a late successful
`confirm_authorization` for the FIRST (failed) intent. -/
def c6Ops : List PayOp :=
  [PayOp.createIntent 10 22000 true 1 "pi_1" 0,
   PayOp.whFailed "pi_1" (some "card_declined"),
   PayOp.createIntent 10 22000 true 2 "pi_2" 10,
   PayOp.confirmAuth "pi_1" 10 "requires_capture" 20]

/-- The first intent's payment row. -/
def c6P1 : PaymentRec := newPendingPayment 1 1 "pi_1" 22000 0

/-- The first payment after the failure webhook. -/
def c6P1failed : PaymentRec :=
  { c6P1 with
    status := PaymentStatus.failed
    failure_reason := some "card_declined" }

/-- The replacement intent's payment row. -/
def c6P2 : PaymentRec := newPendingPayment 2 1 "pi_2" 22000 10

/-- The first payment resurrected by the unguarded
`confirm_authorization`. -/
def c6P1auth : PaymentRec :=
  { c6P1failed with
    status := PaymentStatus.authorized
    authorized_at := some 20 }

/-- The booking after the late confirmation. -/
def c6BookingAuth : Booking :=
  { baseBooking with
    status := BookingStatus.pending
    payment_status := PaymentStatus.authorized
    payment_authorized_at := some 20
    provider_notified_at := some 20
    provider_response_deadline := some (20 + 5 * oneDay)
    updated_at := some 20 }

/-- `applyPayOp` on a successful `create_payment_intent` yields its new
world. -/
theorem applyPayOp_createIntent_ok (w w2 : PayWorld) (uid : ℕ) (amount : ℤ)
    (retrieveOk : Bool) (newId : ℕ) (newIntent : String) (now : ℤ)
    (h : create_payment_intent w uid amount retrieveOk newId newIntent now =
      Except.ok w2) :
    applyPayOp w (PayOp.createIntent uid amount retrieveOk newId newIntent
      now) = w2 := by
  show (match create_payment_intent w uid amount retrieveOk newId newIntent
      now with
    | Except.ok w2 => w2
    | Except.error _ => w) = w2
  rw [h]

/-- Counterexample to claim C6: running the C6 sequence leaves the booking
with an AUTHORIZED payment (`pi_1`, resurrected from FAILED by the
unguarded `confirm_authorization`) and a PENDING payment (`pi_2`) at the
same time — two live payments, violating the claimed invariant. -/
theorem C6_counterexample :
    (runPayOps c6World c6Ops).payments = [c6P1auth, c6P2] ∧
      ¬(liveCount (runPayOps c6World c6Ops).payments ≤ 1) := by
  have hamt : ∀ tp : ℚ, tp = 220 → ¬((22000 : ℤ) ≠ expectedAmountCents tp) := by
    intro tp htp
    rw [htp]
    have h220 : expectedAmountCents (220 : ℚ) = 22000 := by
      unfold expectedAmountCents pyInt
      norm_num
    rw [h220]
    exact fun hk => hk rfl
  have h1 : applyPayOp c6World (PayOp.createIntent 10 22000 true 1 "pi_1" 0) =
      { booking := baseBooking, payments := [c6P1] } := by
    refine applyPayOp_createIntent_ok _ _ _ _ _ _ _ _ ?_
    unfold create_payment_intent
    rw [if_neg (by decide), if_neg (by decide),
      if_neg (hamt c6World.booking.total_price rfl)]
    rfl
  have h2 : applyPayOp { booking := baseBooking, payments := [c6P1] }
      (PayOp.whFailed "pi_1" (some "card_declined")) =
      { booking := baseBooking, payments := [c6P1failed] } := rfl
  have h3 : applyPayOp { booking := baseBooking, payments := [c6P1failed] }
      (PayOp.createIntent 10 22000 true 2 "pi_2" 10) =
      { booking := baseBooking, payments := [c6P1failed, c6P2] } := by
    refine applyPayOp_createIntent_ok _ _ _ _ _ _ _ _ ?_
    unfold create_payment_intent
    rw [if_neg (by decide), if_neg (by decide),
      if_neg (hamt ({ booking := baseBooking, payments := [c6P1failed] } :
        PayWorld).booking.total_price rfl)]
    rfl
  have h4 : applyPayOp { booking := baseBooking, payments := [c6P1failed, c6P2] }
      (PayOp.confirmAuth "pi_1" 10 "requires_capture" 20) =
      { booking := c6BookingAuth, payments := [c6P1auth, c6P2] } := rfl
  have hchain : runPayOps c6World c6Ops =
      applyPayOp (applyPayOp (applyPayOp (applyPayOp c6World
        (PayOp.createIntent 10 22000 true 1 "pi_1" 0))
        (PayOp.whFailed "pi_1" (some "card_declined")))
        (PayOp.createIntent 10 22000 true 2 "pi_2" 10))
        (PayOp.confirmAuth "pi_1" 10 "requires_capture" 20) := rfl
  have hrun : runPayOps c6World c6Ops =
      { booking := c6BookingAuth, payments := [c6P1auth, c6P2] } := by
    rw [hchain, h1, h2, h3, h4]
  refine ⟨by rw [hrun], ?_⟩
  rw [hrun]
  decide

/-- Claim C6 as amended, create path: `create_payment_intent` alone does
preserve the at-most-one-live-payment invariant — it reuses a valid live
payment, and on an invalid handle deletes that stale row before appending
the single fresh PENDING row. -/
theorem C6_amended_createIntent_preserves (ps : List PaymentRec)
    (bookingId : ℕ) (amount : ℤ) (retrieveOk : Bool) (newId : ℕ)
    (newIntent : String) (now : ℤ)
    (h : liveCount ps ≤ 1) :
    liveCount (createIntentPayments ps bookingId amount retrieveOk newId
      newIntent now) ≤ 1 := by
  unfold createIntentPayments
  cases hfind : ps.find? isLivePayment with
  | none =>
    simp only [hfind]
    unfold liveCount
    rw [List.countP_append, countP_eq_zero_of_find?_none _ _ hfind]
    have : ([newPendingPayment newId bookingId newIntent amount now] :
        List PaymentRec).countP isLivePayment = 1 := rfl
    omega
  | some x =>
    simp only [hfind]
    by_cases hr : retrieveOk = true
    · rw [if_pos hr]
      exact h
    · rw [if_neg hr]
      unfold liveCount at h ⊢
      rw [List.countP_append]
      have herase := countP_eraseP_add_one isLivePayment ps x hfind
      have : ([newPendingPayment newId bookingId newIntent amount now] :
          List PaymentRec).countP isLivePayment = 1 := rfl
      omega

/-- A single live (PENDING) payment, for the C6 witness. -/
def c6WitnessPayment : PaymentRec := newPendingPayment 9 1 "pi_w" 22000 0

/-- Witness for the amended C6 theorem: re-creating an intent over one
existing live payment leaves at most one live payment. -/
theorem C6_amended_createIntent_preserves_witness :
    liveCount (createIntentPayments [c6WitnessPayment] 1 22000 true 3
      "pi_3" 5) ≤ 1 :=
  C6_amended_createIntent_preserves [c6WitnessPayment] 1 22000 true 3
    "pi_3" 5 (by decide)

/-- Python `int` fixes integers. -/
theorem pyInt_intCast (n : ℤ) : pyInt (n : ℚ) = n := by
  unfold pyInt
  by_cases h : (0 : ℚ) ≤ (n : ℚ)
  · rw [if_pos h, Int.floor_intCast]
  · rw [if_neg h, show (-(n : ℚ)) = ((-n : ℤ) : ℚ) by push_cast; ring,
      Int.floor_intCast]
    ring

/-- Python `round` fixes integers. -/
theorem pyRoundZ_intCast (n : ℤ) : pyRoundZ (n : ℚ) = n := by
  unfold pyRoundZ
  rw [Int.floor_intCast]
  norm_num

/-- Claim C7 as amended: for the booking's owner and a PENDING booking,
`create_payment_intent` accepts the submitted minor-unit amount exactly
when it equals `int(total_price * 100)` — truncation toward zero, not
`round(...)`; the two agree whenever `total_price * 100` is an integer
(any total with at most two decimal places), but differ on other totals,
which are storable because no endpoint validates `total_price`. -/
theorem C7_amended_amount_gate (w : PayWorld) (uid : ℕ) (amount : ℤ)
    (retrieveOk : Bool) (newId : ℕ) (newIntent : String) (now : ℤ)
    (howner : w.booking.user_id = uid)
    (hpending : w.booking.status = BookingStatus.pending) :
    (isSuccess (create_payment_intent w uid amount retrieveOk newId
        newIntent now) = true ↔
      amount = pyInt (w.booking.total_price * 100)) ∧
    ((w.booking.total_price * 100).den = 1 →
      pyInt (w.booking.total_price * 100) =
        pyRoundZ (w.booking.total_price * 100)) := by
  constructor
  · unfold create_payment_intent
    rw [if_neg (by simp [howner]), if_neg (by simp [hpending])]
    by_cases hamt : amount = expectedAmountCents w.booking.total_price
    · rw [if_neg (by simp [hamt])]
      simp only [isSuccess, true_iff]
      exact hamt
    · rw [if_pos hamt]
      simp only [isSuccess, Bool.false_eq_true, false_iff]
      exact hamt
  · intro hden
    have hq : (((w.booking.total_price * 100).num : ℤ) : ℚ) =
        w.booking.total_price * 100 := by
      exact_mod_cast Rat.coe_int_num_of_den_eq_one hden
    rw [← hq, pyInt_intCast, pyRoundZ_intCast]

/-- The C7 witness world: the concrete booking with the two-decimal total
220. -/
def c7WitnessWorld : PayWorld := { booking := baseBooking, payments := [] }

/-- Witness for the amended C7 theorem at amount 22000 against total
220.00. -/
theorem C7_amended_amount_gate_witness :
    (isSuccess (create_payment_intent c7WitnessWorld 10 22000 true 1
        "pi_7" 0) = true ↔
      (22000 : ℤ) = pyInt (c7WitnessWorld.booking.total_price * 100)) ∧
    ((c7WitnessWorld.booking.total_price * 100).den = 1 →
      pyInt (c7WitnessWorld.booking.total_price * 100) =
        pyRoundZ (c7WitnessWorld.booking.total_price * 100)) :=
  C7_amended_amount_gate c7WitnessWorld 10 22000 true 1 "pi_7" 0 rfl rfl

/-- A booking whose stored total is 2.035 (407/200) — storable since no
endpoint validates `total_price`. -/
def c7Booking : Booking := { baseBooking with total_price := 407/200 }

/-- The C7 counterexample world. -/
def c7World : PayWorld := { booking := c7Booking, payments := [] }

/-- Counterexample to claim C7: for the stored total 2.035 the claimed
accepted amount is `round(2.035 * 100) = 204`, yet the code rejects 204
with AmountMismatch and accepts 203 (`int(...)` truncates 203.5 to
203). -/
theorem C7_counterexample :
    pyRoundZ (c7Booking.total_price * 100) = 204 ∧
      create_payment_intent c7World 10 204 true 1 "pi_9" 0 =
        Except.error ApiErr.amountMismatch ∧
      isSuccess (create_payment_intent c7World 10 203 true 1 "pi_9" 0) =
        true := by
  have hexp : expectedAmountCents c7World.booking.total_price = 203 := by
    show expectedAmountCents (407/200 : ℚ) = 203
    unfold expectedAmountCents pyInt
    norm_num
  refine ⟨?_, ?_, ?_⟩
  · show pyRoundZ ((407/200 : ℚ) * 100) = 204
    unfold pyRoundZ
    norm_num
  · unfold create_payment_intent
    rw [if_neg (by decide), if_neg (by decide),
      if_pos (show (204 : ℤ) ≠ expectedAmountCents c7World.booking.total_price by
        rw [hexp]; decide)]
  · unfold create_payment_intent
    rw [if_neg (by decide), if_neg (by decide),
      if_neg (show ¬((203 : ℤ) ≠ expectedAmountCents c7World.booking.total_price) by
        rw [hexp]; decide)]
    rfl

end HuntProj
